import Mathlib

/-!
Shallow embedding of the `dlfcn` crate (src/rtld.rs, src/dynlib.rs).

Modelling conventions:
* Rust `String` and `CString` values are modelled as their byte sequences,
  `List Nat` (a Rust `String` is exactly its UTF-8 byte vector, and
  `CString::into_string` moves those bytes unchanged on success).
* Raw pointers (`*mut c_void`, symbol addresses, native handles) are `Nat`,
  with `0` playing the role of the null pointer.
* The platform loader (`libc::dlopen` / `dlsym` / `dlclose`) is an external
  collaborator; each embedded operation takes it as an explicit function
  argument, and operations that may invoke it also report the list of
  platform invocations they performed, so call counts are observable.
* `libc` RTLD_* constants are the glibc (Linux) values that the crate's
  documentation targets.
* A Rust panic (the `.unwrap()` in `Library::new`) is modelled by the
  `PanicOr.panic` outcome.
-/

namespace Dlfcn

/-- glibc `RTLD_LAZY`. -/
def RTLD_LAZY : Nat := 0x00001

/-- glibc `RTLD_NOW`. -/
def RTLD_NOW : Nat := 0x00002

/-- glibc `RTLD_GLOBAL`. -/
def RTLD_GLOBAL : Nat := 0x00100

/-- glibc `RTLD_LOCAL`. -/
def RTLD_LOCAL : Nat := 0x00000

/-- glibc `RTLD_NODELETE`. -/
def RTLD_NODELETE : Nat := 0x01000

/-- glibc `RTLD_NOLOAD`. -/
def RTLD_NOLOAD : Nat := 0x00004

/-- glibc `RTLD_DEEPBIND`. -/
def RTLD_DEEPBIND : Nat := 0x00008

/-- The RTLD main value (src/rtld.rs, `enum RtldMain`). -/
inductive RtldMain : Type where
  | Lazy : RtldMain
  | Now : RtldMain
deriving DecidableEq

/-- `RtldMain::to_libc` (src/rtld.rs). -/
def RtldMain.to_libc : RtldMain → Nat
  | RtldMain.Lazy => RTLD_LAZY
  | RtldMain.Now => RTLD_NOW

/-- The RTLD OR values (src/rtld.rs, `enum RtldOr`). -/
inductive RtldOr : Type where
  | Global : RtldOr
  | Local : RtldOr
  | NoDelete : RtldOr
  | NoLoad : RtldOr
  | DeepBind : RtldOr
deriving DecidableEq

/-- `RtldOr::to_libc` (src/rtld.rs). -/
def RtldOr.to_libc : RtldOr → Nat
  | RtldOr.Global => RTLD_GLOBAL
  | RtldOr.Local => RTLD_LOCAL
  | RtldOr.NoDelete => RTLD_NODELETE
  | RtldOr.NoLoad => RTLD_NOLOAD
  | RtldOr.DeepBind => RTLD_DEEPBIND

/-- `struct RtldValue` (src/rtld.rs): one main value plus a list of OR values. -/
structure RtldValue : Type where
  main : RtldMain
  ors : List RtldOr
deriving DecidableEq

/-- `RtldValue::new` (src/rtld.rs). -/
def RtldValue.new (main : RtldMain) : RtldValue :=
  { main := main, ors := [] }

/-- `RtldValue::with` (src/rtld.rs): pushes an OR value onto the list.
(`with` is a reserved word in Lean, hence the quoted name.) -/
def RtldValue.«with» (v : RtldValue) (o : RtldOr) : RtldValue :=
  { v with ors := v.ors ++ [o] }

/-- `RtldValue::to_libc` (src/rtld.rs): starts from the main value's constant
and ORs every pushed value on top, in insertion order. -/
def RtldValue.to_libc (v : RtldValue) : Nat :=
  v.ors.foldl (fun ret o => ret ||| o.to_libc) v.main.to_libc

/-- `CString::new` on the bytes of a Rust string: fails exactly when the bytes
contain an interior NUL byte; otherwise the `CString` carries the same bytes. -/
def cstring_new (s : List Nat) : Option (List Nat) :=
  if s.contains 0 then none else some s

/-- One byte of a multi-byte UTF-8 sequence continuation: `0x80..=0xBF`. -/
def isCont (b : Nat) : Bool :=
  0x80 ≤ b && b ≤ 0xBF

/-- UTF-8 validity of a byte sequence, exactly the check performed by Rust's
`std::str::from_utf8` (which `CString::into_string` relies on): ASCII bytes
stand alone, and multi-byte heads `0xC2..=0xF4` require the correct number of
continuation bytes with the usual restricted ranges after `0xE0`, `0xED`,
`0xF0` and `0xF4` (excluding overlongs and surrogates). -/
def validUTF8 : List Nat → Bool
  | [] => true
  | b :: l =>
    if b ≤ 0x7F then
      validUTF8 l
    else if b < 0xC2 then
      false
    else if b ≤ 0xDF then
      match l with
      | c1 :: l1 => isCont c1 && validUTF8 l1
      | [] => false
    else if b ≤ 0xEF then
      match l with
      | c1 :: c2 :: l2 =>
        (if b = 0xE0 then 0xA0 ≤ c1 && c1 ≤ 0xBF
         else if b = 0xED then 0x80 ≤ c1 && c1 ≤ 0x9F
         else isCont c1) && isCont c2 && validUTF8 l2
      | _ => false
    else if b ≤ 0xF4 then
      match l with
      | c1 :: c2 :: c3 :: l3 =>
        (if b = 0xF0 then 0x90 ≤ c1 && c1 ≤ 0xBF
         else if b = 0xF4 then 0x80 ≤ c1 && c1 ≤ 0x8F
         else isCont c1) && isCont c2 && isCont c3 && validUTF8 l3
      | _ => false
    else
      false

/-- `CString::into_string`: succeeds, keeping the same bytes (a Rust `String`
is its UTF-8 byte vector), exactly when the bytes are valid UTF-8. -/
def into_string (b : List Nat) : Option (List Nat) :=
  if validUTF8 b then some b else none

/-- Outcome of a Rust computation that may panic. -/
inductive PanicOr (α : Type) : Type where
  | panic : PanicOr α
  | ok : α → PanicOr α
deriving DecidableEq

/-- `struct Library` (src/dynlib.rs): native handle (0 = null), origin path
bytes, and the symbol VTable mapping symbol-name bytes to addresses.
The `HashMap` is modelled as an association list consulted with `lookup`;
`sym` only ever inserts a key that is absent, so insertion is `cons`. -/
structure Library : Type where
  handle : Nat
  name : List Nat
  table : List (List Nat × Nat)
deriving DecidableEq

/-- Result of `Library::sym`: the returned `Option<Box<T>>` (modelled as the
optional address the box was forged from), the library state after the call,
and the list of `dlsym` invocations performed, each recorded as
(handle, name-pointer) where `none` is the null name pointer. -/
structure SymOutcome : Type where
  ret : Option Nat
  lib : Library
  calls : List (Nat × Option (List Nat))
deriving DecidableEq

/-- `Library::sym` (src/dynlib.rs): consult the table first; on a hit, forge a
`Box` from the cached address and return `Some` of it without touching the
platform. Otherwise bail out with `None` on a null handle or on a name that
`CString::new` rejects; else call `dlsym` once — with a null name pointer when
`name` is empty — unconditionally insert the result into the table, and return
`Some` of the box forged from it (even when `dlsym` returned null). -/
def Library.sym (dlsym : Nat → Option (List Nat) → Nat) (lib : Library)
    (name : List Nat) : SymOutcome :=
  match lib.table.lookup name with
  | some addr => { ret := some addr, lib := lib, calls := [] }
  | none =>
    if lib.handle = 0 then
      { ret := none, lib := lib, calls := [] }
    else
      match cstring_new name with
      | none => { ret := none, lib := lib, calls := [] }
      | some _ =>
        let arg : Option (List Nat) := if name.isEmpty then none else some name
        let sym_c := dlsym lib.handle arg
        { ret := some sym_c
          lib := { lib with table := (name, sym_c) :: lib.table }
          calls := [(lib.handle, arg)] }

/-- `Library::new` (src/dynlib.rs): call `dlopen`; a null handle yields `None`;
otherwise build the `Library`, panicking (`unwrap`) if `into_string` fails on
the path bytes. -/
def Library.new (dlopen : List Nat → Nat → Nat) (name_c : List Nat)
    (flags : RtldValue) : PanicOr (Option Library) :=
  let handle := dlopen name_c flags.to_libc
  if handle = 0 then
    PanicOr.ok none
  else
    match into_string name_c with
    | none => PanicOr.panic
    | some s => PanicOr.ok (some { handle := handle, name := s, table := [] })

/-- `Library::open` (src/dynlib.rs): encode the path with `CString::new`
(returning `false` on failure, before any platform call), then `Library::new`
(`false` if it yields `None`), then run the closure and return `true`.
The second component counts the `dlopen` invocations performed. -/
def Library.«open» (dlopen : List Nat → Nat → Nat) (name : List Nat)
    (flags : RtldValue) (closure : Library → Unit) : PanicOr Bool × Nat :=
  match cstring_new name with
  | none => (PanicOr.ok false, 0)
  | some cstr =>
    match Library.new dlopen cstr flags with
    | PanicOr.panic => (PanicOr.panic, 1)
    | PanicOr.ok none => (PanicOr.ok false, 1)
    | PanicOr.ok (some lib) =>
      let _ := closure lib
      (PanicOr.ok true, 1)

/-- `impl Drop for Library` (src/dynlib.rs): call `dlclose` on the handle
exactly when it is non-null, discarding its status. The second component is
the list of handles `dlclose` was invoked on. -/
def Library.drop (dlclose : Nat → Int) (lib : Library) : Unit × List Nat :=
  if lib.handle = 0 then
    ((), [])
  else
    let _ := dlclose lib.handle
    ((), [lib.handle])

/-! ### Helper lemmas about the flags model -/

/-- No `RtldOr` native constant touches the two primary-mode bits. -/
lemma or_to_libc_and_three (o : RtldOr) : o.to_libc &&& 3 = 0 := by
  cases o <;> decide

/-- Both primary-mode constants live entirely in the low two bits. -/
lemma main_to_libc_and_three (m : RtldMain) : m.to_libc &&& 3 = m.to_libc := by
  cases m <;> decide

/-- ORing modifier constants on top of an accumulator never changes the low
two bits of the accumulator. -/
lemma foldl_or_and_three (l : List RtldOr) (c : Nat) :
    (l.foldl (fun a o => a ||| o.to_libc) c) &&& 3 = c &&& 3 := by
  induction l generalizing c with
  | nil => rfl
  | cons o t ih =>
    simp only [List.foldl_cons]
    rw [ih, Nat.and_distrib_right, or_to_libc_and_three, Nat.or_zero]

/-- The left fold of bitwise OR over the modifier constants equals the
accumulator ORed with the right fold of the mapped constants. -/
lemma foldl_or_eq_foldr (l : List RtldOr) (c : Nat) :
    l.foldl (fun a o => a ||| o.to_libc) c
      = c ||| (l.map RtldOr.to_libc).foldr (fun a b => a ||| b) 0 := by
  induction l generalizing c with
  | nil => simp
  | cons o t ih =>
    simp only [List.foldl_cons, List.map_cons, List.foldr_cons]
    rw [ih, Nat.or_assoc]

/-- C3: the native mask is the primary mode's constant ORed with every
modifier's constant; `to_libc` commutes with `with` as a bitwise OR; exactly
one of the two primary-mode constants appears in the mask (the `Lazy` bit is
present iff the main value is `Lazy`, likewise for `Now`); and augmenting
with a modifier sets the modifier's bits without clearing any previously set
bit (both the old mask and the modifier constant are absorbed by the new
mask under OR). -/
theorem to_libc_mask_algebra (f : RtldValue) (m : RtldOr) :
    (f.«with» m).to_libc = f.to_libc ||| m.to_libc ∧
    f.to_libc = f.main.to_libc ||| (f.ors.map RtldOr.to_libc).foldr (fun a b => a ||| b) 0 ∧
    f.to_libc &&& (RTLD_LAZY ||| RTLD_NOW) = f.main.to_libc ∧
    (f.to_libc &&& RTLD_LAZY ≠ 0 ↔ f.main = RtldMain.Lazy) ∧
    (f.to_libc &&& RTLD_NOW ≠ 0 ↔ f.main = RtldMain.Now) ∧
    f.to_libc ||| (f.«with» m).to_libc = (f.«with» m).to_libc ∧
    m.to_libc ||| (f.«with» m).to_libc = (f.«with» m).to_libc := by
  obtain ⟨fm, fo⟩ := f
  have hw : (RtldValue.mk fm fo |>.«with» m).to_libc
      = (RtldValue.mk fm fo).to_libc ||| m.to_libc := by
    simp [RtldValue.to_libc, RtldValue.«with», List.foldl_append]
  have h3 : (RtldValue.mk fm fo).to_libc &&& 3 = fm.to_libc := by
    rw [RtldValue.to_libc, foldl_or_and_three]
    exact main_to_libc_and_three fm
  refine ⟨hw, ?_, ?_, ?_, ?_, ?_, ?_⟩
  · rw [RtldValue.to_libc, foldl_or_eq_foldr]
  · have hLN : RTLD_LAZY ||| RTLD_NOW = 3 := by decide
    rw [hLN]; exact h3
  · have hL : (3 : Nat) &&& RTLD_LAZY = RTLD_LAZY := by decide
    have e : (RtldValue.mk fm fo).to_libc &&& RTLD_LAZY = fm.to_libc &&& RTLD_LAZY := by
      rw [← h3, Nat.and_assoc, hL]
    rw [e]
    show fm.to_libc &&& RTLD_LAZY ≠ 0 ↔ fm = RtldMain.Lazy
    cases fm <;> decide
  · have hN : (3 : Nat) &&& RTLD_NOW = RTLD_NOW := by decide
    have e : (RtldValue.mk fm fo).to_libc &&& RTLD_NOW = fm.to_libc &&& RTLD_NOW := by
      rw [← h3, Nat.and_assoc, hN]
    rw [e]
    show fm.to_libc &&& RTLD_NOW ≠ 0 ↔ fm = RtldMain.Now
    cases fm <;> decide
  · rw [hw, ← Nat.or_assoc, Nat.or_self]
  · rw [hw, ← Nat.or_assoc,
      Nat.or_comm (RtldOr.to_libc m) (RtldValue.mk fm fo).to_libc,
      Nat.or_assoc, Nat.or_self]

/-! ### Theorems about `Library::sym` -/

/-- C1: evaluating the code at the failing input. On a library with a
non-null handle and an empty table, when the platform `dlsym` signals absence
by returning the null address for name `"x"` (`[120]`), `sym` does NOT return
absence (`none`): it returns `some 0` — the `Some(Box::from_raw(NULL))` the
source produces — on the first lookup, and again `some 0` on the repeated
(cached) lookup. -/
theorem sym_dlsym_null_returns_some :
    ((Library.mk 1 [] []).sym (fun _ _ => 0) [120]).ret = some 0 ∧
    (((Library.mk 1 [] []).sym (fun _ _ => 0) [120]).lib.sym
        (fun _ _ => 0) [120]).ret = some 0 ∧
    ((Library.mk 1 [] []).sym (fun _ _ => 0) [120]).ret ≠ none := by
  decide

/-- C2: first resolution of an uncached name on a non-null handle with an
encodable name performs exactly one platform `dlsym` call and inserts the
result into the cache unconditionally (including a null/absent result, for
any `dlsym` oracle); the second resolution of the same name performs zero
platform calls and returns the cached result with an unchanged library
state. -/
theorem sym_caches_result (dlsym : Nat → Option (List Nat) → Nat)
    (lib : Library) (name : List Nat)
    (h1 : lib.table.lookup name = none) (h2 : lib.handle ≠ 0)
    (h3 : name.contains 0 = false) :
    (lib.sym dlsym name).calls.length = 1 ∧
    (lib.sym dlsym name).lib.table
      = (name, dlsym lib.handle (if name.isEmpty then none else some name))
          :: lib.table ∧
    (lib.sym dlsym name).ret
      = some (dlsym lib.handle (if name.isEmpty then none else some name)) ∧
    ((lib.sym dlsym name).lib.sym dlsym name).calls = [] ∧
    ((lib.sym dlsym name).lib.sym dlsym name).ret = (lib.sym dlsym name).ret ∧
    ((lib.sym dlsym name).lib.sym dlsym name).lib = (lib.sym dlsym name).lib := by
  have e1 : lib.sym dlsym name
      = { ret := some (dlsym lib.handle (if name.isEmpty then none else some name))
          lib := { lib with
            table := (name, dlsym lib.handle
              (if name.isEmpty then none else some name)) :: lib.table }
          calls := [(lib.handle, if name.isEmpty then none else some name)] } := by
    rw [Library.sym, h1]
    have h3m : ¬(0 ∈ name) := by simpa using h3
    simp [h2, cstring_new, h3m]
  have e2 : ({ lib with
        table := (name, dlsym lib.handle
          (if name.isEmpty then none else some name)) :: lib.table } : Library).sym
        dlsym name
      = { ret := some (dlsym lib.handle (if name.isEmpty then none else some name))
          lib := { lib with
            table := (name, dlsym lib.handle
              (if name.isEmpty then none else some name)) :: lib.table }
          calls := [] } := by
    rw [Library.sym]
    simp [List.lookup_cons_self]
  rw [e1]
  exact ⟨rfl, rfl, rfl, by rw [e2], by rw [e2], by rw [e2]⟩

/-- C2 witness: concrete run with handle 1, empty cache, name `[120]` and a
platform `dlsym` that always signals absence (returns 0): one call on the
first lookup, zero on the second, cached entry `([120], 0)`. -/
theorem sym_caches_result_witness :
    ((Library.mk 1 [] []).table.lookup [120] = none ∧
      (Library.mk 1 [] []).handle ≠ 0 ∧ ([120] : List Nat).contains 0 = false) ∧
    (((Library.mk 1 [] []).sym (fun _ _ => 0) [120]).calls.length = 1 ∧
      ((Library.mk 1 [] []).sym (fun _ _ => 0) [120]).lib.table
        = ([120], (fun _ _ => 0 : Nat → Option (List Nat) → Nat) 1
            (if ([120] : List Nat).isEmpty then none else some [120])) :: [] ∧
      ((Library.mk 1 [] []).sym (fun _ _ => 0) [120]).ret
        = some ((fun _ _ => 0 : Nat → Option (List Nat) → Nat) 1
            (if ([120] : List Nat).isEmpty then none else some [120])) ∧
      (((Library.mk 1 [] []).sym (fun _ _ => 0) [120]).lib.sym
          (fun _ _ => 0) [120]).calls = [] ∧
      (((Library.mk 1 [] []).sym (fun _ _ => 0) [120]).lib.sym
          (fun _ _ => 0) [120]).ret
        = ((Library.mk 1 [] []).sym (fun _ _ => 0) [120]).ret ∧
      (((Library.mk 1 [] []).sym (fun _ _ => 0) [120]).lib.sym
          (fun _ _ => 0) [120]).lib
        = ((Library.mk 1 [] []).sym (fun _ _ => 0) [120]).lib) :=
  ⟨⟨rfl, by decide, rfl⟩,
    sym_caches_result (fun _ _ => 0) (Library.mk 1 [] []) [120] rfl (by decide) rfl⟩

/-- C7: when the name is not cached, a null native handle makes `sym` return
`none` immediately with no platform call and no state change; likewise a name
that `CString::new` rejects (contains an interior NUL byte) yields `none`
with no platform call. -/
theorem sym_early_return (dlsym : Nat → Option (List Nat) → Nat)
    (lib : Library) (name : List Nat)
    (h1 : lib.table.lookup name = none) :
    (lib.handle = 0 →
      lib.sym dlsym name = { ret := none, lib := lib, calls := [] }) ∧
    (name.contains 0 = true →
      lib.sym dlsym name = { ret := none, lib := lib, calls := [] }) := by
  constructor
  · intro h0
    rw [Library.sym, h1]
    simp [h0]
  · intro hc
    rw [Library.sym, h1]
    by_cases h0 : lib.handle = 0
    · simp [h0]
    · have hcm : 0 ∈ name := by simpa using hc
      simp [h0, cstring_new, hcm]

/-- C7 witness: a null-handle library returns `none` for the uncached name
`[97]` without touching the oracle, and a library with handle 3 returns
`none` for the NUL-containing name `[0]`. -/
theorem sym_early_return_witness :
    ((Library.mk 0 [] []).sym (fun _ _ => 5) [97]
        = { ret := none, lib := Library.mk 0 [] [], calls := [] }) ∧
    ((Library.mk 3 [] []).sym (fun _ _ => 5) [0]
        = { ret := none, lib := Library.mk 3 [] [], calls := [] }) :=
  ⟨(sym_early_return (fun _ _ => 5) (Library.mk 0 [] []) [97] rfl).1 rfl,
    (sym_early_return (fun _ _ => 5) (Library.mk 3 [] []) [0] rfl).2 (by decide)⟩

/-- C8: resolving the uncached empty name on a non-null handle invokes the
platform `dlsym` exactly once, with the library's handle and a null name
pointer (recorded as `none`), returning the box forged from its result. -/
theorem sym_empty_name_null_pointer (dlsym : Nat → Option (List Nat) → Nat)
    (lib : Library)
    (h1 : lib.table.lookup [] = none) (h2 : lib.handle ≠ 0) :
    (lib.sym dlsym []).calls = [(lib.handle, none)] ∧
    (lib.sym dlsym []).ret = some (dlsym lib.handle none) := by
  rw [Library.sym, h1]
  simp [h2, cstring_new]

/-- C8 witness: concrete run with handle 2 and an oracle answering 9: the one
platform call is `(2, none)` — a null name pointer — and the result is
`some 9`. -/
theorem sym_empty_name_null_pointer_witness :
    ((Library.mk 2 [] []).sym (fun _ _ => 9) []).calls = [(2, none)] ∧
    ((Library.mk 2 [] []).sym (fun _ _ => 9) []).ret
      = some ((fun _ _ => 9 : Nat → Option (List Nat) → Nat) 2 none) :=
  sym_empty_name_null_pointer (fun _ _ => 9) (Library.mk 2 [] []) rfl (by decide)

/-- C9: the symbol cache grows monotonically under `sym`: every entry the
table held before is still found with the same value afterwards, and the new
table is either unchanged or extends the old one by exactly one entry for a
name that was absent before. -/
theorem sym_table_monotone (dlsym : Nat → Option (List Nat) → Nat)
    (lib : Library) (name : List Nat) :
    (∀ k v, lib.table.lookup k = some v →
      (lib.sym dlsym name).lib.table.lookup k = some v) ∧
    ((lib.sym dlsym name).lib.table = lib.table ∨
      (lib.table.lookup name = none ∧
        ∃ a, (lib.sym dlsym name).lib.table = (name, a) :: lib.table)) := by
  rw [Library.sym]
  cases h : lib.table.lookup name with
  | some addr => exact ⟨fun k v hv => hv, Or.inl rfl⟩
  | none =>
    by_cases h0 : lib.handle = 0
    · simp only [h0, if_pos rfl]
      exact ⟨fun k v hv => hv, Or.inl rfl⟩
    · simp only [if_neg h0]
      cases hc : cstring_new name with
      | none => exact ⟨fun k v hv => hv, Or.inl rfl⟩
      | some c =>
        refine ⟨fun k v hv => ?_, Or.inr ⟨trivial, _, rfl⟩⟩
        have hk : (k == name) = false := by
          rw [beq_eq_false_iff_ne]
          intro e
          rw [e, h] at hv
          exact Option.noConfusion hv
        simp [List.lookup_cons, hk, hv]

/-- C9 witness: on a library whose table holds `([97], 5)`, resolving the
different name `[98]` leaves the old entry retrievable with its old value. -/
theorem sym_table_monotone_witness :
    ((Library.mk 1 [] [([97], 5)]).sym (fun _ _ => 0) [98]).lib.table.lookup [97]
      = some 5 :=
  (sym_table_monotone (fun _ _ => 0) (Library.mk 1 [] [([97], 5)]) [98]).1
    [97] 5 rfl

/-! ### Theorems about `Library::open`, `Library::new` and `Drop` -/

/-- C4 counterexample: with a platform open that always fails, opening the
embedded-NUL path `[0]` performs zero platform calls (that part of the claim
holds), but its caller-visible outcome — `Ok false` — is exactly the outcome
of opening the clean path `[97]` whose platform open fails: the invalid-path
failure is NOT distinguishable from `OpenFailed`, since `open` collapses both
to the same `false`. -/
theorem open_invalid_path_indistinguishable :
    (Library.«open» (fun _ _ => 0) [0] (RtldValue.new RtldMain.Lazy)
        (fun _ => ())).2 = 0 ∧
    (Library.«open» (fun _ _ => 0) [0] (RtldValue.new RtldMain.Lazy)
        (fun _ => ())).1
      = (Library.«open» (fun _ _ => 0) [97] (RtldValue.new RtldMain.Lazy)
          (fun _ => ())).1 := by
  decide

/-- C4 amended: for every path containing an embedded NUL byte, every flags
value, every platform oracle and every closure, `open` returns `false` with
zero platform open invocations. -/
theorem open_invalid_path_no_platform_call (dlopen : List Nat → Nat → Nat)
    (name : List Nat) (flags : RtldValue) (closure : Library → Unit)
    (h : name.contains 0 = true) :
    Library.«open» dlopen name flags closure = (PanicOr.ok false, 0) := by
  have hm : 0 ∈ name := by simpa using h
  rw [Library.«open»]
  simp [cstring_new, hm]

/-- C4 amended witness: opening the path `[97, 0, 98]` (with an interior NUL)
against an always-succeeding platform open returns `false` with zero platform
calls. -/
theorem open_invalid_path_no_platform_call_witness :
    Library.«open» (fun _ _ => 7) [97, 0, 98] (RtldValue.new RtldMain.Now)
      (fun _ => ()) = (PanicOr.ok false, 0) :=
  open_invalid_path_no_platform_call (fun _ _ => 7) [97, 0, 98]
    (RtldValue.new RtldMain.Now) (fun _ => ()) (by decide)

/-- C5: `Library::new` returns `None` whenever the platform open yields the
null handle, and every library it actually returns has a non-null native
handle and an empty symbol table. -/
theorem new_handle_check (dlopen : List Nat → Nat → Nat) (name_c : List Nat)
    (flags : RtldValue) :
    (dlopen name_c flags.to_libc = 0 →
      Library.new dlopen name_c flags = PanicOr.ok none) ∧
    (∀ lib, Library.new dlopen name_c flags = PanicOr.ok (some lib) →
      lib.handle ≠ 0 ∧ lib.table = []) := by
  constructor
  · intro h0
    rw [Library.new]
    simp [h0]
  · intro lib hlib
    rw [Library.new] at hlib
    by_cases h0 : dlopen name_c flags.to_libc = 0
    · simp [h0] at hlib
    · simp only [h0, if_neg, if_false] at hlib
      cases hs : into_string name_c with
      | none => rw [hs] at hlib; simp at hlib
      | some s =>
        rw [hs] at hlib
        simp only [PanicOr.ok.injEq, Option.some.injEq] at hlib
        rw [← hlib]
        exact ⟨h0, rfl⟩

/-- C5 witness: a failing platform open (always null) yields `Ok none` for
path `[97]`, and the library produced by a succeeding open (handle 1) has a
non-null handle and an empty table. -/
theorem new_handle_check_witness :
    (Library.new (fun _ _ => 0) [97] (RtldValue.new RtldMain.Lazy)
        = PanicOr.ok none) ∧
    ((Library.mk 1 [97] []).handle ≠ 0 ∧ (Library.mk 1 [97] []).table = []) :=
  ⟨(new_handle_check (fun _ _ => 0) [97] (RtldValue.new RtldMain.Lazy)).1 rfl,
    (new_handle_check (fun _ _ => 1) [97] (RtldValue.new RtldMain.Lazy)).2
      (Library.mk 1 [97] []) (by decide)⟩

/-- C6: at destruction, `dlclose` is invoked exactly once on the handle when
it is non-null and never when it is null, and the outcome is identical for
every `dlclose` oracle — a failing platform close is never reported (the
status is discarded and the return is `()` regardless). -/
theorem drop_closes_once_if_nonnull (dlclose1 dlclose2 : Nat → Int)
    (lib : Library) :
    (Library.drop dlclose1 lib).2
      = (if lib.handle = 0 then [] else [lib.handle]) ∧
    Library.drop dlclose1 lib = Library.drop dlclose2 lib := by
  rw [Library.drop, Library.drop]
  by_cases h : lib.handle = 0 <;> simp [h]

/-- C10: `Library::new` never panics on a path whose bytes are valid UTF-8,
for every platform oracle and flags; and it does panic (at the
`into_string().unwrap()`) on the non-UTF-8 path `[255]` when the platform
open returns the non-null handle 1. -/
theorem new_panics_only_on_invalid_utf8 :
    (∀ (dlopen : List Nat → Nat → Nat) (flags : RtldValue) (name_c : List Nat),
      validUTF8 name_c = true →
        Library.new dlopen name_c flags ≠ PanicOr.panic) ∧
    Library.new (fun _ _ => 1) [255] (RtldValue.new RtldMain.Lazy)
      = PanicOr.panic := by
  constructor
  · intro dlopen flags name_c h
    rw [Library.new]
    by_cases h0 : dlopen name_c flags.to_libc = 0
    · simp [h0]
    · simp [h0, into_string, h]
  · decide

/-- C10 witness: `new` does not panic on the valid-UTF-8 path `[104, 105]`
with a succeeding platform open. -/
theorem new_panics_only_on_invalid_utf8_witness :
    Library.new (fun _ _ => 1) [104, 105] (RtldValue.new RtldMain.Now)
      ≠ PanicOr.panic :=
  new_panics_only_on_invalid_utf8.1 (fun _ _ => 1) (RtldValue.new RtldMain.Now)
    [104, 105] (by decide)

end Dlfcn
